import Mathlib

/-!
Shallow embedding of the Home_helper_bot reminder scheduler
(`src/bot.py`, `src/database.py`).

Time model: an instant is a number of minutes (an `Int`); a calendar date
is a day index (an `Int`), so `datetime.combine(d, 00:00)` is `d * 1440`
minutes and `timedelta(days = n)` is `n * 1440` minutes.  The wall-clock
`datetime.now()` is passed explicitly as a parameter `now : Int`.
A task's `due_time` is stored in the database as the string "HH:MM" and is
always parsed with `hour, minute = map(int, due_time.split(':'))`; we embed
it directly as the parsed pair of integers.
-/

namespace Bot

/-- Wall-clock time of day as parsed from the "HH:MM" string. -/
structure HM where
  hour : Int
  minute : Int
deriving DecidableEq, Repr

/-- Minutes in a day: `timedelta(days=1)`. -/
def oneDay : Int := 1440

/-- The instant `datetime.combine(d, datetime.min.time()) + timedelta(hours=hm.hour, minutes=hm.minute)`. -/
def combine (d : Int) (hm : HM) : Int := d * 1440 + hm.hour * 60 + hm.minute

/-- Row of the `tasks` table (`src/database.py`, class `Task`). -/
structure Task where
  id : Nat
  user_id : Nat
  title : String
  category_id : Option Nat
  due_time : HM
  start_date : Int
  repeat_type : String
  repeat_days : Option String
  interval_days : Int
  reminder_offset : Int
  is_done : Bool
  created_at : Int
deriving DecidableEq, Repr

/-- Row of the `categories` table (`src/database.py`, class `Category`). -/
structure Category where
  id : Nat
  user_id : Nat
  name : String
deriving DecidableEq, Repr

/-- Python truthiness of the nullable string column `repeat_days`:
`None` and the empty string are falsy. -/
def optTruthy : Option String → Bool
  | none => false
  | some s => !(s == "")

/-- The `task.repeat_days.split(',')` list used by the weekly branch. -/
def splitDays : Option String → List String
  | none => []
  | some s => s.splitOn ","

/-- APScheduler trigger descriptors as constructed by `get_trigger`
(`src/bot.py` lines 112-129): `CronTrigger(hour, minute)`,
`CronTrigger(day_of_week, hour, minute)`, `IntervalTrigger(days, start_date)`
and the fully-dated `CronTrigger(year, month, day, hour, minute)` whose sole
fire instant is `run_date` (held here as an absolute instant in minutes). -/
inductive Trigger where
  | cronDaily (hour minute : Int)
  | cronWeekly (days : List String) (hour minute : Int)
  | interval (days : Int) (start : Int)
  | oneShot (runAt : Int)
deriving DecidableEq, Repr

/-- Absolute fire instants of the two date-anchored triggers: an
`IntervalTrigger(days=d, start_date=s)` fires at `s, s + d days, s + 2 d days, …`
and the fully-dated one-shot cron fires exactly once at `run_date`. -/
def Trigger.nthFire : Trigger → Nat → Option Int
  | Trigger.interval d s, n => some (s + (n : Int) * (d * 1440))
  | Trigger.oneShot r, 0 => some r
  | _, _ => none

/-- Borrow step (`src/bot.py` lines 106-108): if the minute is negative,
add 60 to it and take one hour. -/
def borrowAdjust (hour minute : Int) : Int × Int :=
  if minute < 0 then (hour - 1, minute + 60) else (hour, minute)

/-- Clamp step (`src/bot.py` lines 109-110): a negative hour becomes 23. -/
def clampHour (p : Int × Int) : Int × Int :=
  if p.1 < 0 then (23, p.2) else p

/-- Early-reminder time-of-day adjustment (`src/bot.py` lines 105-110, and the
same arithmetic at lines 86-92): subtract the offset from the minute, borrow
one hour if the minute went negative, and clamp a negative hour to 23. -/
def offsetAdjust (hour minute off : Int) : Int × Int :=
  clampHour (borrowAdjust hour (minute - off))

/-- `get_trigger(task, offset)` (`src/bot.py` lines 101-129) with the wall
clock `datetime.now()` made explicit as `now`. -/
def get_trigger (now : Int) (task : Task) (offset : Bool) : Trigger :=
  let hm :=
    if offset = true ∧ task.reminder_offset ≠ 0 then
      offsetAdjust task.due_time.hour task.due_time.minute task.reminder_offset
    else (task.due_time.hour, task.due_time.minute)
  if task.repeat_type = "daily" then
    Trigger.cronDaily hm.1 hm.2
  else if task.repeat_type = "weekly" ∧ optTruthy task.repeat_days = true then
    Trigger.cronWeekly (splitDays task.repeat_days) hm.1 hm.2
  else if task.repeat_type = "interval" ∧ task.interval_days ≠ 0 then
    let start0 := task.start_date * 1440 + hm.1 * 60 + hm.2
    let start1 := if start0 < now then start0 + task.interval_days * 1440 else start0
    Trigger.interval task.interval_days start1
  else
    let run0 := task.start_date * 1440 + hm.1 * 60 + hm.2
    let run1 := if run0 < now then run0 + oneDay else run0
    Trigger.oneShot run1

/-- Which callback a scheduled job runs: `send_reminder` or `send_early_reminder`. -/
inductive JobKind where
  | main
  | early
deriving DecidableEq, Repr

/-- The APScheduler job id `f"task_{task.id}"` of the main reminder. -/
def mainJobId (tid : Nat) : String := "task_" ++ toString tid

/-- The APScheduler job id `f"task_{task.id}_early"` of the early reminder. -/
def earlyJobId (tid : Nat) : String := mainJobId tid ++ "_early"

/-- A live job in the scheduler's table: id, callback, the `args` passed to
the callback, and the trigger. -/
structure Job where
  id : String
  kind : JobKind
  user_id : Nat
  task_id : Nat
  offArg : Option Int
  trigger : Trigger
deriving DecidableEq, Repr

/-- The scheduler's table of live jobs. -/
def JobTable := List Job

/-- `scheduler.add_job(..., id=jid, replace_existing=True)`: any existing job
with the same id is atomically superseded by the new one. -/
def addJob (tbl : JobTable) (j : Job) : JobTable :=
  j :: tbl.filter (fun k => !(k.id == j.id))

/-- `scheduler.remove_job(jid)`: removes the job with that id, raising
`JobLookupError` (modelled as `Except.error`) when no such job exists —
this is APScheduler's documented behavior for `remove_job`. -/
def removeJob (tbl : JobTable) (jid : String) : Except String JobTable :=
  if tbl.any (fun j => j.id == jid) then
    Except.ok (tbl.filter (fun j => !(j.id == jid)))
  else
    Except.error "JobLookupError"

/-- Number of live jobs carrying a given job id. -/
def countId (tbl : JobTable) (jid : String) : Nat :=
  tbl.countP (fun j => j.id == jid)

/-- `schedule_task(task)` (`src/bot.py` lines 71-99): registers the main
reminder under id `task_{id}` with `replace_existing=True`, and, only when
`task.reminder_offset > 0`, the early reminder under id `task_{id}_early`. -/
def schedule_task (now : Int) (tbl : JobTable) (task : Task) : JobTable :=
  let tbl1 := addJob tbl
    { id := mainJobId task.id, kind := JobKind.main, user_id := task.user_id,
      task_id := task.id, offArg := none, trigger := get_trigger now task false }
  if task.reminder_offset > 0 then
    addJob tbl1
      { id := earlyJobId task.id, kind := JobKind.early, user_id := task.user_id,
        task_id := task.id, offArg := some task.reminder_offset,
        trigger := get_trigger now task true }
  else tbl1

/-- The unconditional pair of `scheduler.remove_job` calls performed by both
`mark_done` (`src/bot.py` lines 454-455) and `delete_task` (lines 704-705). -/
def cancelTaskJobs (tbl : JobTable) (tid : Nat) : Except String JobTable :=
  match removeJob tbl (mainJobId tid) with
  | Except.error e => Except.error e
  | Except.ok tbl1 => removeJob tbl1 (earlyJobId tid)

/-- A call the scheduler makes into the Notifier (`bot.send_message`) when a
job fires. -/
inductive NotifierCall where
  | mainMsg (user_id : Nat) (t : Task)
  | earlyMsg (user_id : Nat) (t : Task) (off : Int)
deriving DecidableEq, Repr

/-- `session.query(Task).filter(Task.id == task_id).first()`. -/
def findTask (tasks : List Task) (tid : Nat) : Option Task :=
  tasks.find? (fun t => t.id == tid)

/-- `send_reminder(user_id, task_id)` (`src/bot.py` lines 131-148): reloads
the task by id and notifies only when it exists and is not done. -/
def send_reminder (tasks : List Task) (user_id tid : Nat) : List NotifierCall :=
  match findTask tasks tid with
  | some t => if t.is_done = false then [NotifierCall.mainMsg user_id t] else []
  | none => []

/-- `send_early_reminder(user_id, task_id, offset)` (`src/bot.py` lines
150-158): same existence and not-done guard. -/
def send_early_reminder (tasks : List Task) (user_id tid : Nat) (off : Int) :
    List NotifierCall :=
  match findTask tasks tid with
  | some t => if t.is_done = false then [NotifierCall.earlyMsg user_id t off] else []
  | none => []

/-- The relational store: the `tasks` and `categories` tables. -/
structure Store where
  tasks : List Task
  categories : List Category
deriving DecidableEq, Repr

/-- Mutation of the single row returned by `.first()`: the first element
satisfying `p` is replaced by its image under `f`, everything else is kept. -/
def updateFirst (p : α → Bool) (f : α → α) : List α → List α
  | [] => []
  | x :: xs => if p x then f x :: xs else x :: updateFirst p f xs

/-- `session.query(Task).filter(Task.id == tid, Task.user_id == uid).first()`. -/
def findOwnedTask (s : Store) (uid tid : Nat) : Option Task :=
  s.tasks.find? (fun t => t.id == tid && t.user_id == uid)

/-- `session.query(Category).filter(Category.id == cid, Category.user_id == uid).first()`. -/
def findOwnedCategory (s : Store) (uid cid : Nat) : Option Category :=
  s.categories.find? (fun c => c.id == cid && c.user_id == uid)

/-- `mark_done` (`src/bot.py` lines 445-460): looks the task up by id and
requesting user; when found, sets `is_done` and removes both scheduler jobs
(each removal via `scheduler.remove_job`, which raises on a missing id);
when not found, only answers "not found" (store and scheduler untouched). -/
def mark_done (s : Store) (tbl : JobTable) (uid tid : Nat) :
    Store × Except String JobTable :=
  match findOwnedTask s uid tid with
  | none => (s, Except.ok tbl)
  | some t =>
      let tasks1 := updateFirst (fun x => x.id == tid && x.user_id == uid)
        (fun x => { x with is_done := true }) s.tasks
      ({ s with tasks := tasks1 }, cancelTaskJobs tbl t.id)

/-- The field edits handled by `edit_new_value_text` (`src/bot.py` lines
584-598), after input validation has succeeded. -/
inductive EditField where
  | title (s : String)
  | time (hm : HM)
  | offsetMin (n : Int)
deriving DecidableEq, Repr

/-- Assignment of the edited field onto the task row. -/
def apply_edit (t : Task) : EditField → Task
  | EditField.title s => { t with title := s }
  | EditField.time hm => { t with due_time := hm }
  | EditField.offsetMin n => { t with reminder_offset := n }

/-- `edit_new_value_text` (`src/bot.py` lines 571-605): looks the task up by
id and requesting user; when found, writes the new field value, commits and
re-runs `schedule_task` on the edited task; when not found, nothing changes. -/
def edit_new_value_text (now : Int) (s : Store) (tbl : JobTable)
    (uid tid : Nat) (f : EditField) : Store × JobTable :=
  match findOwnedTask s uid tid with
  | none => (s, tbl)
  | some t =>
      let tasks1 := updateFirst (fun x => x.id == tid && x.user_id == uid)
        (fun x => apply_edit x f) s.tasks
      ({ s with tasks := tasks1 }, schedule_task now tbl (apply_edit t f))

/-- `delete_task` (`src/bot.py` lines 697-712): looks the task up by id and
requesting user; when found, removes both scheduler jobs first (lines 704-705,
raising semantics as in `mark_done`) and only then deletes the row — a
`JobLookupError` from the removal aborts the handler before `session.delete`,
so on error the row survives; when not found, nothing changes. -/
def delete_task (s : Store) (tbl : JobTable) (uid tid : Nat) :
    Store × Except String JobTable :=
  match findOwnedTask s uid tid with
  | none => (s, Except.ok tbl)
  | some t =>
      match cancelTaskJobs tbl t.id with
      | Except.error e => (s, Except.error e)
      | Except.ok tbl1 =>
          ({ s with tasks := s.tasks.eraseP (fun x => x.id == tid && x.user_id == uid) },
           Except.ok tbl1)

/-- `rename_category` (`src/bot.py` lines 759-778): looks the category up by
id and requesting user; when found, renames it in place; when not found,
nothing changes.  No scheduler interaction. -/
def rename_category (s : Store) (uid cid : Nat) (newName : String) : Store :=
  match findOwnedCategory s uid cid with
  | none => s
  | some _ =>
      let cats1 := updateFirst (fun c => c.id == cid && c.user_id == uid)
        (fun c => { c with name := newName }) s.categories
      { s with categories := cats1 }

/-- `confirm_delete_category` (`src/bot.py` lines 801-819): looks the category
up by id and requesting user; when found, nulls `category_id` on every task
referencing it and deletes the category row; when not found, nothing changes. -/
def confirm_delete_category (s : Store) (uid cid : Nat) : Store :=
  match findOwnedCategory s uid cid with
  | none => s
  | some _ =>
      { tasks := s.tasks.map (fun t =>
          if t.category_id = some cid then { t with category_id := none } else t),
        categories := s.categories.eraseP (fun c => c.id == cid && c.user_id == uid) }

/-! Branch characterizations of `get_trigger`. -/

/-- With `offset=False`, a one-shot task (`repeat_type = 'none'`) yields the
fully-dated cron trigger at `combine(start_date, due_time)`, pushed one day
later exactly when that instant is strictly before `now`. -/
theorem get_trigger_main_oneshot (now : Int) (t : Task) (h : t.repeat_type = "none") :
    get_trigger now t false
      = Trigger.oneShot (if combine t.start_date t.due_time < now
          then combine t.start_date t.due_time + oneDay
          else combine t.start_date t.due_time) := by
  have h1 : ¬ t.repeat_type = "daily" := by rw [h]; decide
  have h2 : ¬ (t.repeat_type = "weekly" ∧ optTruthy t.repeat_days = true) := by
    rintro ⟨hc, -⟩; rw [h] at hc; exact absurd hc (by decide)
  have h3 : ¬ (t.repeat_type = "interval" ∧ t.interval_days ≠ 0) := by
    rintro ⟨hc, -⟩; rw [h] at hc; exact absurd hc (by decide)
  simp only [get_trigger, combine, if_neg h1, if_neg h2, if_neg h3]
  simp [mul_comm]

/-- With `offset=False`, an interval task yields `IntervalTrigger(days, start)`
where `start` is `combine(start_date, due_time)`, advanced by a single
`interval_days`-day jump exactly when that instant is strictly before `now`. -/
theorem get_trigger_main_interval (now : Int) (t : Task)
    (h : t.repeat_type = "interval") (hN : t.interval_days ≠ 0) :
    get_trigger now t false
      = Trigger.interval t.interval_days
          (if combine t.start_date t.due_time < now
            then combine t.start_date t.due_time + t.interval_days * 1440
            else combine t.start_date t.due_time) := by
  have h1 : ¬ t.repeat_type = "daily" := by rw [h]; decide
  have h2 : ¬ (t.repeat_type = "weekly" ∧ optTruthy t.repeat_days = true) := by
    rintro ⟨hc, -⟩; rw [h] at hc; exact absurd hc (by decide)
  simp only [get_trigger, combine, if_neg h1, if_neg h2, if_pos (And.intro h hN)]
  simp [mul_comm]

/-- With `offset=False`, a weekly task with a truthy day list yields the
weekly `CronTrigger` at the task's due time. -/
theorem get_trigger_main_weekly (now : Int) (t : Task)
    (h : t.repeat_type = "weekly") (hdays : optTruthy t.repeat_days = true) :
    get_trigger now t false
      = Trigger.cronWeekly (splitDays t.repeat_days)
          t.due_time.hour t.due_time.minute := by
  have h1 : ¬ t.repeat_type = "daily" := by rw [h]; decide
  simp only [get_trigger, if_neg h1, if_pos (And.intro h hdays)]
  simp

/-- With `offset=False`, a daily task yields `CronTrigger(hour, minute)` at
the task's due time, whatever `reminder_offset` is. -/
theorem get_trigger_main_daily (now : Int) (t : Task) (h : t.repeat_type = "daily") :
    get_trigger now t false = Trigger.cronDaily t.due_time.hour t.due_time.minute := by
  simp only [get_trigger, if_pos h]
  simp

/-- With `offset=True` and a nonzero `reminder_offset`, a daily task yields
`CronTrigger` at the `offsetAdjust`ed time-of-day. -/
theorem get_trigger_early_daily (now : Int) (t : Task) (h : t.repeat_type = "daily")
    (hoff : t.reminder_offset ≠ 0) :
    get_trigger now t true
      = Trigger.cronDaily
          (offsetAdjust t.due_time.hour t.due_time.minute t.reminder_offset).1
          (offsetAdjust t.due_time.hour t.due_time.minute t.reminder_offset).2 := by
  simp only [get_trigger, if_pos h]
  simp [hoff]

/-! Claim C1: one-shot roll-forward. -/

/-- One-shot task due 08:00 on day 0. -/
def tC1 : Task :=
  { id := 1, user_id := 7, title := "t", category_id := none, due_time := ⟨8, 0⟩,
    start_date := 0, repeat_type := "none", repeat_days := none,
    interval_days := 0, reminder_offset := 0, is_done := false, created_at := 0 }

/-- C1 counterexample: at `now = combine(startDate, dueTime)` (so `runAt` is
at or before "now"), `get_trigger` keeps the fire instant at `runAt` itself —
the comparison in `src/bot.py` line 126 is strict — so the produced instant is
not `runAt` plus one day as the claim states. -/
theorem C1_counterexample :
    combine tC1.start_date tC1.due_time ≤ 480
    ∧ get_trigger 480 tC1 false = Trigger.oneShot (combine tC1.start_date tC1.due_time)
    ∧ combine tC1.start_date tC1.due_time ≠ combine tC1.start_date tC1.due_time + oneDay := by
  refine ⟨by decide, ?_, by decide⟩
  rfl

/-- C1 (amended): for every one-shot task, when `combine(startDate, dueTime)`
is strictly before "now" the single produced fire instant is exactly that
instant plus one day, never more; the trigger has no further fire. -/
theorem C1_oneshot_rollforward (now : Int) (t : Task) (h : t.repeat_type = "none")
    (hlt : combine t.start_date t.due_time < now) :
    get_trigger now t false = Trigger.oneShot (combine t.start_date t.due_time + oneDay)
    ∧ ∀ k : Nat, Trigger.nthFire (get_trigger now t false) (k + 1) = none := by
  have hmain := get_trigger_main_oneshot now t h
  rw [if_pos hlt] at hmain
  exact ⟨hmain, fun k => by rw [hmain]; rfl⟩

/-- C1 witness: day 0, 08:00 is instant 480; with `now = 481` the theorem
yields the instant 480 + 1440. -/
theorem C1_witness :
    get_trigger 481 tC1 false = Trigger.oneShot (combine tC1.start_date tC1.due_time + oneDay)
    ∧ ∀ k : Nat, Trigger.nthFire (get_trigger 481 tC1 false) (k + 1) = none :=
  C1_oneshot_rollforward 481 tC1 rfl (by decide)

/-! Claim C2: interval first-occurrence correction. -/

/-- Interval task, every 3 days, due 08:00 on day 0. -/
def tC2 : Task :=
  { id := 2, user_id := 7, title := "t", category_id := none, due_time := ⟨8, 0⟩,
    start_date := 0, repeat_type := "interval", repeat_days := none,
    interval_days := 3, reminder_offset := 0, is_done := false, created_at := 0 }

/-- C2 counterexample: at `now = combine(startDate, dueTime)` (so the first
instant is at or before "now"), the comparison in `src/bot.py` line 120 is
strict, so the first instant stays `combine(startDate, dueTime)` and is not
advanced by `everyNDays` as the claim states. -/
theorem C2_counterexample :
    combine tC2.start_date tC2.due_time ≤ 480
    ∧ get_trigger 480 tC2 false
        = Trigger.interval 3 (combine tC2.start_date tC2.due_time)
    ∧ combine tC2.start_date tC2.due_time
        ≠ combine tC2.start_date tC2.due_time + 3 * 1440 := by
  refine ⟨by decide, ?_, by decide⟩
  rfl

/-- C2 (amended): for every interval task with `everyNDays = N > 0`, when the
first instant `combine(startDate, dueTime)` is strictly before "now", the
corrected first instant is exactly `firstInstant + N` days (one jump, even if
still in the past), and the k-th occurrence is that corrected instant plus
`k * N` days. -/
theorem C2_interval_single_jump (now : Int) (t : Task) (h : t.repeat_type = "interval")
    (hN : 0 < t.interval_days)
    (hlt : combine t.start_date t.due_time < now) :
    get_trigger now t false
      = Trigger.interval t.interval_days
          (combine t.start_date t.due_time + t.interval_days * 1440)
    ∧ ∀ k : Nat, Trigger.nthFire (get_trigger now t false) k
        = some (combine t.start_date t.due_time + t.interval_days * 1440
            + (k : Int) * (t.interval_days * 1440)) := by
  have hmain := get_trigger_main_interval now t h (by omega)
  rw [if_pos hlt] at hmain
  exact ⟨hmain, fun k => by rw [hmain]; rfl⟩

/-- C2 witness: day 0, 08:00 is instant 480, `everyNDays = 3`; with
`now = 15000` (more than 10 days later) the corrected first instant is still
only `480 + 3 * 1440`. -/
theorem C2_witness :
    get_trigger 15000 tC2 false
      = Trigger.interval tC2.interval_days
          (combine tC2.start_date tC2.due_time + tC2.interval_days * 1440)
    ∧ ∀ k : Nat, Trigger.nthFire (get_trigger 15000 tC2 false) k
        = some (combine tC2.start_date tC2.due_time + tC2.interval_days * 1440
            + (k : Int) * (tC2.interval_days * 1440)) :=
  C2_interval_single_jump 15000 tC2 rfl (by decide) (by decide)

/-! Claim C3: early-trigger hour wrap. -/

/-- C3: the early time-of-day derivation subtracts the offset from the minute,
borrows one hour on a negative minute, and clamps a negative hour to 23; in
particular whenever `minute - offset < 0` and the borrowed hour is negative
the result is `(23, minute - offset + 60)`, and due time 00:10 with offset 20
yields 23:50 (with the early trigger of a daily task carrying exactly that
time-of-day). -/
theorem C3_early_hour_wrap (h m off : Int) (now : Int) (t : Task)
    (hneg : m - off < 0) (hh : h - 1 < 0)
    (hdue : t.due_time = ⟨h, m⟩) (hoff : t.reminder_offset = off) (hpos : 0 < off)
    (hd : t.repeat_type = "daily") :
    offsetAdjust h m off = (23, m - off + 60)
    ∧ get_trigger now t true = Trigger.cronDaily 23 (m - off + 60)
    ∧ offsetAdjust 0 10 20 = (23, 50) := by
  have hadj : offsetAdjust h m off = (23, m - off + 60) := by
    unfold offsetAdjust borrowAdjust clampHour
    rw [if_pos hneg]
    simp only
    rw [if_pos hh]
  refine ⟨hadj, ?_, by decide⟩
  rw [get_trigger_early_daily now t hd (by omega), hdue, hoff]
  simp only [hadj]

/-- C3 witness: daily task due 00:10 with offset 20 → early trigger 23:50. -/
theorem C3_witness :
    offsetAdjust 0 10 20 = (23, 10 - 20 + 60)
    ∧ get_trigger 0
        { id := 3, user_id := 7, title := "t", category_id := none,
          due_time := ⟨0, 10⟩, start_date := 0, repeat_type := "daily",
          repeat_days := none, interval_days := 0, reminder_offset := 20,
          is_done := false, created_at := 0 } true
        = Trigger.cronDaily 23 (10 - 20 + 60)
    ∧ offsetAdjust 0 10 20 = (23, 50) :=
  C3_early_hour_wrap 0 10 20 0
    { id := 3, user_id := 7, title := "t", category_id := none,
      due_time := ⟨0, 10⟩, start_date := 0, repeat_type := "daily",
      repeat_days := none, interval_days := 0, reminder_offset := 20,
      is_done := false, created_at := 0 }
    (by decide) (by decide) rfl rfl (by decide) rfl

/-! Claim C9: validity range of the early time-of-day. -/

/-- C9: for a valid due time and `0 < offset ≤ minute + 60` the adjusted early
time-of-day is a valid wall-clock time; the derivation borrows at most one
hour, so for `offset > minute + 60` the computed minute stays negative. -/
theorem C9_early_validity (h m off : Int)
    (hh0 : 0 ≤ h) (hh1 : h ≤ 23) (hm0 : 0 ≤ m) (hm1 : m ≤ 59) :
    (0 < off → off ≤ m + 60 →
      0 ≤ (offsetAdjust h m off).1 ∧ (offsetAdjust h m off).1 ≤ 23
      ∧ 0 ≤ (offsetAdjust h m off).2 ∧ (offsetAdjust h m off).2 ≤ 59)
    ∧ (m + 60 < off → (offsetAdjust h m off).2 < 0) := by
  unfold offsetAdjust borrowAdjust clampHour
  constructor
  · intro h1 h2
    split_ifs <;> simp_all <;> omega
  · intro h1
    split_ifs <;> simp_all <;> omega

/-- C9 witness: due 08:30, offset 45 gives the valid time 07:45; due 00:10,
offset 90 leaves the minute negative. -/
theorem C9_witness :
    ((0 : Int) < 45 → (45 : Int) ≤ 30 + 60 →
      0 ≤ (offsetAdjust 8 30 45).1 ∧ (offsetAdjust 8 30 45).1 ≤ 23
      ∧ 0 ≤ (offsetAdjust 8 30 45).2 ∧ (offsetAdjust 8 30 45).2 ≤ 59)
    ∧ ((30 : Int) + 60 < 45 → (offsetAdjust 8 30 45).2 < 0) :=
  C9_early_validity 8 30 45 (by decide) (by decide) (by decide) (by decide)

/-! Claim C5: stale or completed fires are silent no-ops. -/

/-- C5: whenever the task loaded from the store by id does not exist or is
already done, both fire callbacks produce zero Notifier calls. -/
theorem C5_stale_fire_noop (tasks : List Task) (uid tid : Nat) (off : Int)
    (hgone : ∀ t, findTask tasks tid = some t → t.is_done = true) :
    send_reminder tasks uid tid = [] ∧ send_early_reminder tasks uid tid off = [] := by
  unfold send_reminder send_early_reminder
  cases hf : findTask tasks tid with
  | none => simp
  | some t =>
      have hd := hgone t hf
      simp [hd]

/-- Completed task used in the C5 witness. -/
def tC5 : Task :=
  { id := 1, user_id := 7, title := "t", category_id := none, due_time := ⟨8, 0⟩,
    start_date := 0, repeat_type := "none", repeat_days := none,
    interval_days := 0, reminder_offset := 5, is_done := true, created_at := 0 }

/-- C5 witness: a fire for a completed task makes no Notifier call. -/
theorem C5_witness :
    send_reminder [tC5] 7 1 = [] ∧ send_early_reminder [tC5] 7 1 5 = [] :=
  C5_stale_fire_noop [tC5] 7 1 5 (by
    intro t ht
    rw [show findTask [tC5] 1 = some tC5 from rfl] at ht
    cases ht
    rfl)

/-! Job-table accounting for claims C4 and C7. -/

/-- The main and early job ids of one task differ. -/
theorem mainJobId_ne_earlyJobId (tid : Nat) : mainJobId tid ≠ earlyJobId tid := by
  intro hcon
  have hl := congrArg String.length hcon
  rw [earlyJobId, String.length_append] at hl
  have h6 : ("_early" : String).length = 6 := rfl
  omega

/-- Removing every job of one id leaves the count of a different id alone. -/
theorem countId_filter_ne (tbl : JobTable) (a b : String) (h : a ≠ b) :
    countId (tbl.filter (fun k => !(k.id == b))) a = countId tbl a := by
  unfold countId
  rw [List.countP_filter]
  have hfun : (fun k : Job => (k.id == a) && !(k.id == b)) = (fun k : Job => k.id == a) := by
    funext k
    by_cases hk : k.id = a
    · rw [hk]
      have hab : (a == b) = false := beq_eq_false_iff_ne.mpr h
      simp [hab]
    · simp [hk]
  rw [hfun]

/-- After `add_job` with `replace_existing=True`, exactly one job carries the
added id. -/
theorem countId_addJob_self (tbl : JobTable) (j : Job) :
    countId (addJob tbl j) j.id = 1 := by
  unfold countId addJob
  rw [List.countP_cons, List.countP_filter]
  have hfun : (fun k : Job => (k.id == j.id) && !(k.id == j.id)) = (fun _ : Job => false) := by
    funext k
    by_cases hk : k.id = j.id <;> simp [hk]
  rw [hfun]
  simp

/-- `add_job` does not change the count of any other id. -/
theorem countId_addJob_ne (tbl : JobTable) (j : Job) (jid : String) (h : jid ≠ j.id) :
    countId (addJob tbl j) jid = countId tbl jid := by
  have hb : (j.id == jid) = false := beq_eq_false_iff_ne.mpr (fun hc => h hc.symm)
  have hfil := countId_filter_ne tbl jid j.id h
  unfold countId at hfil
  unfold countId addJob
  rw [List.countP_cons, hb]
  simpa using hfil

/-- `schedule_task` leaves exactly one live main job for the task. -/
theorem countId_schedule_main (now : Int) (tbl : JobTable) (task : Task) :
    countId (schedule_task now tbl task) (mainJobId task.id) = 1 := by
  unfold schedule_task
  split_ifs with hoff
  · rw [countId_addJob_ne _ _ _ (mainJobId_ne_earlyJobId task.id)]
    exact countId_addJob_self _ _
  · exact countId_addJob_self _ _

/-- With a positive offset, `schedule_task` leaves exactly one live early job
for the task. -/
theorem countId_schedule_early_pos (now : Int) (tbl : JobTable) (task : Task)
    (h : 0 < task.reminder_offset) :
    countId (schedule_task now tbl task) (earlyJobId task.id) = 1 := by
  unfold schedule_task
  rw [if_pos h]
  exact countId_addJob_self _ _

/-- With a non-positive offset, `schedule_task` does not touch the early job
count of the task. -/
theorem countId_schedule_early_nonpos (now : Int) (tbl : JobTable) (task : Task)
    (h : ¬ 0 < task.reminder_offset) :
    countId (schedule_task now tbl task) (earlyJobId task.id)
      = countId tbl (earlyJobId task.id) := by
  unfold schedule_task
  rw [if_neg h]
  exact countId_addJob_ne _ _ _ (fun hc => mainJobId_ne_earlyJobId task.id hc.symm)

/-- Folding a sequence of `schedule_task` calls for one task id preserves
"at most one main job and at most one early job", and an early job present at
the end was present initially or was put there by a call with a positive
offset. -/
theorem schedule_fold_invariant (tid : Nat) :
    ∀ (calls : List (Int × Task)) (tbl : JobTable),
      (∀ c ∈ calls, (Prod.snd c).id = tid) →
      countId tbl (mainJobId tid) ≤ 1 →
      countId tbl (earlyJobId tid) ≤ 1 →
      countId (calls.foldl (fun tb c => schedule_task c.1 tb c.2) tbl) (mainJobId tid) ≤ 1
      ∧ countId (calls.foldl (fun tb c => schedule_task c.1 tb c.2) tbl) (earlyJobId tid) ≤ 1
      ∧ (0 < countId (calls.foldl (fun tb c => schedule_task c.1 tb c.2) tbl) (earlyJobId tid)
          → 0 < countId tbl (earlyJobId tid)
            ∨ ∃ c ∈ calls, 0 < (Prod.snd c).reminder_offset) := by
  intro calls
  induction calls with
  | nil =>
      intro tbl hids hm he
      exact ⟨hm, he, fun h0 => Or.inl h0⟩
  | cons c rest ih =>
      intro tbl hids hm he
      have hcid : (Prod.snd c).id = tid := hids c (List.mem_cons_self c rest)
      have hmain1 : countId (schedule_task c.1 tbl c.2) (mainJobId tid) = 1 := by
        rw [← hcid]; exact countId_schedule_main c.1 tbl c.2
      have hearly1 : countId (schedule_task c.1 tbl c.2) (earlyJobId tid) ≤ 1
          ∧ (0 < countId (schedule_task c.1 tbl c.2) (earlyJobId tid)
              → 0 < countId tbl (earlyJobId tid) ∨ 0 < (Prod.snd c).reminder_offset) := by
        by_cases hoff : 0 < (Prod.snd c).reminder_offset
        · have h1 : countId (schedule_task c.1 tbl c.2) (earlyJobId tid) = 1 := by
            rw [← hcid]; exact countId_schedule_early_pos c.1 tbl c.2 hoff
          exact ⟨by omega, fun _ => Or.inr hoff⟩
        · have h1 : countId (schedule_task c.1 tbl c.2) (earlyJobId tid)
              = countId tbl (earlyJobId tid) := by
            rw [← hcid]; exact countId_schedule_early_nonpos c.1 tbl c.2 hoff
          exact ⟨by omega, fun h0 => Or.inl (by omega)⟩
      have hrest : ∀ d ∈ rest, (Prod.snd d).id = tid :=
        fun d hd => hids d (List.mem_cons_of_mem c hd)
      obtain ⟨H1, H2, H3⟩ := ih (schedule_task c.1 tbl c.2) hrest (by omega) hearly1.1
      rw [List.foldl_cons]
      refine ⟨H1, H2, fun h0 => ?_⟩
      rcases H3 h0 with hl | hr
      · rcases hearly1.2 hl with hl2 | hr2
        · exact Or.inl hl2
        · exact Or.inr ⟨c, List.mem_cons_self c rest, hr2⟩
      · obtain ⟨d, hd, hdo⟩ := hr
        exact Or.inr ⟨d, List.mem_cons_of_mem c hd, hdo⟩

/-- C4 (amended): starting from a table with no early job for the task, any
sequence of `schedule_task` calls on the task leaves at most one live main job
and at most one live early job — a later call supersedes the earlier job of
each kind it registers — and a live early job implies some call in the
sequence had `reminder_offset > 0` (not necessarily the last one: a call with
offset 0 does not remove a stale early job). -/
theorem C4_at_most_one_job (tid : Nat) (calls : List (Int × Task)) (tbl : JobTable)
    (hids : ∀ c ∈ calls, (Prod.snd c).id = tid)
    (hm : countId tbl (mainJobId tid) ≤ 1)
    (he : countId tbl (earlyJobId tid) = 0) :
    countId (calls.foldl (fun tb c => schedule_task c.1 tb c.2) tbl) (mainJobId tid) ≤ 1
    ∧ countId (calls.foldl (fun tb c => schedule_task c.1 tb c.2) tbl) (earlyJobId tid) ≤ 1
    ∧ (0 < countId (calls.foldl (fun tb c => schedule_task c.1 tb c.2) tbl) (earlyJobId tid)
        → ∃ c ∈ calls, 0 < (Prod.snd c).reminder_offset) := by
  obtain ⟨h1, h2, h3⟩ := schedule_fold_invariant tid calls tbl hids hm (by omega)
  refine ⟨h1, h2, fun h0 => ?_⟩
  rcases h3 h0 with hl | hr
  · omega
  · exact hr

/-- Daily task with a 30-minute early reminder. -/
def tC4a : Task :=
  { id := 1, user_id := 7, title := "t", category_id := none, due_time := ⟨8, 0⟩,
    start_date := 0, repeat_type := "daily", repeat_days := none,
    interval_days := 0, reminder_offset := 30, is_done := false, created_at := 0 }

/-- The same task after an edit setting the early offset to 0. -/
def tC4b : Task := { tC4a with reminder_offset := 0 }

/-- C4 counterexample: scheduling the task with offset 30, then re-scheduling
after the offset was edited to 0, leaves the stale early job live although the
task's `reminder_offset` is 0 — `schedule_task` (`src/bot.py` lines 84-99)
never removes an early job when the offset is no longer positive. -/
theorem C4_counterexample :
    tC4b.reminder_offset = 0
    ∧ countId (schedule_task 5 (schedule_task 0 [] tC4a) tC4b) (earlyJobId tC4b.id) = 1 :=
  ⟨rfl, rfl⟩

/-- C4 witness: two concrete schedule calls on task 1 starting from an empty
table. -/
theorem C4_witness :
    countId ([((0 : Int), tC4a), ((5 : Int), tC4b)].foldl
        (fun tb c => schedule_task c.1 tb c.2) []) (mainJobId 1) ≤ 1
    ∧ countId ([((0 : Int), tC4a), ((5 : Int), tC4b)].foldl
        (fun tb c => schedule_task c.1 tb c.2) []) (earlyJobId 1) ≤ 1
    ∧ (0 < countId ([((0 : Int), tC4a), ((5 : Int), tC4b)].foldl
          (fun tb c => schedule_task c.1 tb c.2) []) (earlyJobId 1)
        → ∃ c ∈ [((0 : Int), tC4a), ((5 : Int), tC4b)],
            0 < (Prod.snd c).reminder_offset) :=
  C4_at_most_one_job 1 [((0 : Int), tC4a), ((5 : Int), tC4b)] []
    (by decide) (by decide) (by decide)

/-! Claim C7: an edit of the due time re-derives the registered trigger. -/

/-- After any `schedule_task`, the live job found under the task's main job id
is the freshly registered one, with trigger `get_trigger(task)`. -/
theorem find_main_schedule (now : Int) (tbl : JobTable) (u : Task) :
    (schedule_task now tbl u).find? (fun j => j.id == mainJobId u.id)
      = some { id := mainJobId u.id, kind := JobKind.main, user_id := u.user_id,
               task_id := u.id, offArg := none, trigger := get_trigger now u false } := by
  have hne : (mainJobId u.id == earlyJobId u.id) = false :=
    beq_eq_false_iff_ne.mpr (mainJobId_ne_earlyJobId u.id)
  have hne2 : (earlyJobId u.id == mainJobId u.id) = false :=
    beq_eq_false_iff_ne.mpr (fun hc => mainJobId_ne_earlyJobId u.id hc.symm)
  unfold schedule_task addJob
  by_cases hoff : 0 < u.reminder_offset
  · rw [if_pos hoff]
    rw [List.find?_cons_of_neg _ (by simp [hne2]), List.filter_cons,
      if_pos (by simp [hne]), List.find?_cons_of_pos _ (by simp)]
  · rw [if_neg hoff]
    rw [List.find?_cons_of_pos _ (by simp)]

/-- C7: for every task, after an edit changes the due time and
`schedule_task` re-runs, the live main job registered for the task carries the
trigger freshly re-derived from the task's current fields, and under every
repeat policy that trigger is built from the new due time, not the old one:
daily and weekly crons fire at the new time-of-day, and interval and one-shot
triggers anchor at `combine(startDate, newDueTime)`. -/
theorem C7_edit_time_reschedules (now : Int) (tbl : JobTable) (t : Task) (nt : HM) :
    ((schedule_task now tbl (apply_edit t (EditField.time nt))).find?
        (fun j => j.id == mainJobId t.id)
      = some { id := mainJobId t.id, kind := JobKind.main, user_id := t.user_id,
               task_id := t.id, offArg := none,
               trigger := get_trigger now (apply_edit t (EditField.time nt)) false })
    ∧ (t.repeat_type = "daily" →
        get_trigger now (apply_edit t (EditField.time nt)) false
          = Trigger.cronDaily nt.hour nt.minute)
    ∧ (t.repeat_type = "weekly" → optTruthy t.repeat_days = true →
        get_trigger now (apply_edit t (EditField.time nt)) false
          = Trigger.cronWeekly (splitDays t.repeat_days) nt.hour nt.minute)
    ∧ (t.repeat_type = "interval" → t.interval_days ≠ 0 →
        get_trigger now (apply_edit t (EditField.time nt)) false
          = Trigger.interval t.interval_days
              (if combine t.start_date nt < now
                then combine t.start_date nt + t.interval_days * 1440
                else combine t.start_date nt))
    ∧ (t.repeat_type = "none" →
        get_trigger now (apply_edit t (EditField.time nt)) false
          = Trigger.oneShot (if combine t.start_date nt < now
              then combine t.start_date nt + oneDay
              else combine t.start_date nt)) := by
  refine ⟨find_main_schedule now tbl (apply_edit t (EditField.time nt)),
    fun hd => ?_, fun hw hdays => ?_, fun hi hN => ?_, fun hn => ?_⟩
  · exact get_trigger_main_daily now (apply_edit t (EditField.time nt)) hd
  · exact get_trigger_main_weekly now (apply_edit t (EditField.time nt)) hw hdays
  · exact get_trigger_main_interval now (apply_edit t (EditField.time nt)) hi hN
  · exact get_trigger_main_oneshot now (apply_edit t (EditField.time nt)) hn

/-- Daily task due 09:00. -/
def tC7 : Task :=
  { id := 4, user_id := 7, title := "t", category_id := none, due_time := ⟨9, 0⟩,
    start_date := 0, repeat_type := "daily", repeat_days := none,
    interval_days := 0, reminder_offset := 0, is_done := false, created_at := 0 }

/-- C7 witness: editing the daily task's due time from 09:00 to 10:30 and
re-scheduling registers the main job with the freshly derived trigger, which
fires at 10:30. -/
theorem C7_witness :
    ((schedule_task 0 [] (apply_edit tC7 (EditField.time ⟨10, 30⟩))).find?
        (fun j => j.id == mainJobId tC7.id)
      = some { id := mainJobId tC7.id, kind := JobKind.main, user_id := tC7.user_id,
               task_id := tC7.id, offArg := none,
               trigger := get_trigger 0 (apply_edit tC7 (EditField.time ⟨10, 30⟩)) false })
    ∧ get_trigger 0 (apply_edit tC7 (EditField.time ⟨10, 30⟩)) false
        = Trigger.cronDaily (10 : Int) (30 : Int) :=
  ⟨(C7_edit_time_reschedules 0 [] tC7 ⟨10, 30⟩).1,
   (C7_edit_time_reschedules 0 [] tC7 ⟨10, 30⟩).2.1 rfl⟩

/-! Claim C6: cancelling jobs that do not exist. -/

/-- Daily task with no early reminder (offset 0), owned by user 5. -/
def tC6 : Task :=
  { id := 1, user_id := 5, title := "t", category_id := none, due_time := ⟨8, 0⟩,
    start_date := 0, repeat_type := "daily", repeat_days := none,
    interval_days := 0, reminder_offset := 0, is_done := false, created_at := 0 }

/-- Store holding only `tC6`. -/
def storeC6 : Store := { tasks := [tC6], categories := [] }

/-- Daily task with a 30-minute early reminder, owned by user 5. -/
def tC6b : Task :=
  { id := 2, user_id := 5, title := "t", category_id := none, due_time := ⟨8, 0⟩,
    start_date := 0, repeat_type := "daily", repeat_days := none,
    interval_days := 0, reminder_offset := 30, is_done := false, created_at := 0 }

/-- C6: scheduling a task with `reminder_offset = 0` creates no early job, and
then marking it done raises `JobLookupError` out of the unconditional
`scheduler.remove_job(f"task_{id}_early")` call — not the claimed silent
no-op.  When both jobs do exist, the same removal pair succeeds and empties
the table. -/
theorem C6_cancel_missing_job_raises :
    countId (schedule_task 0 [] tC6) (earlyJobId tC6.id) = 0
    ∧ (mark_done storeC6 (schedule_task 0 [] tC6) 5 1).2 = Except.error "JobLookupError"
    ∧ cancelTaskJobs (schedule_task 0 [] tC6b) tC6b.id = Except.ok [] :=
  ⟨rfl, rfl, rfl⟩

/-! Claim C10: mutations with a foreign or unknown id change nothing. -/

/-- C10: when no task row matches (id, requesting user) and no category row
matches (id, requesting user), `mark_done`, `edit_new_value_text`,
`delete_task` and `rename_category` leave the store unchanged and cancel or
re-register no jobs. -/
theorem C10_foreign_id_no_mutation (now : Int) (s : Store) (tbl : JobTable)
    (uid tid cid : Nat) (f : EditField) (nm : String)
    (hT : findOwnedTask s uid tid = none)
    (hC : findOwnedCategory s uid cid = none) :
    mark_done s tbl uid tid = (s, Except.ok tbl)
    ∧ edit_new_value_text now s tbl uid tid f = (s, tbl)
    ∧ delete_task s tbl uid tid = (s, Except.ok tbl)
    ∧ rename_category s uid cid nm = s := by
  unfold mark_done edit_new_value_text delete_task rename_category
  rw [hT, hC]
  exact ⟨rfl, rfl, rfl, rfl⟩

/-- Task owned by user 2, used in the C10 witness. -/
def tC10 : Task :=
  { id := 1, user_id := 2, title := "t", category_id := some 1,
    due_time := ⟨8, 0⟩, start_date := 0, repeat_type := "none",
    repeat_days := none, interval_days := 0, reminder_offset := 0,
    is_done := false, created_at := 0 }

/-- Store for the C10 witness: one task and one category, both owned by
user 2. -/
def storeC10 : Store :=
  { tasks := [tC10], categories := [{ id := 1, user_id := 2, name := "c" }] }

/-- C10 witness: user 1 requests mutations on user 2's rows (task id 1,
category id 1); nothing changes. -/
theorem C10_witness :
    mark_done storeC10 [] 1 1 = (storeC10, Except.ok [])
    ∧ edit_new_value_text 0 storeC10 [] 1 1 (EditField.title "x") = (storeC10, [])
    ∧ delete_task storeC10 [] 1 1 = (storeC10, Except.ok [])
    ∧ rename_category storeC10 1 1 "y" = storeC10 :=
  C10_foreign_id_no_mutation 0 storeC10 [] 1 1 1 (EditField.title "x") "y" rfl rfl

/-! Claim C8: deleting a category detaches it and touches nothing else. -/

/-- An element not satisfying the predicate survives `eraseP`. -/
theorem mem_eraseP_of_pred_false {α : Type} (p : α → Bool) :
    ∀ (l : List α) (a : α), a ∈ l → p a = false → a ∈ l.eraseP p := by
  intro l
  induction l with
  | nil => intro a ha _; cases ha
  | cons x xs ih =>
      intro a ha hpa
      by_cases hx : p x = true
      · rw [List.eraseP_cons_of_pos hx]
        cases List.mem_cons.mp ha with
        | inl heq => rw [heq] at hpa; rw [hx] at hpa; cases hpa
        | inr hmem => exact hmem
      · rw [List.eraseP_cons_of_neg hx]
        cases List.mem_cons.mp ha with
        | inl heq => exact heq ▸ List.mem_cons_self x (xs.eraseP p)
        | inr hmem => exact List.mem_cons_of_mem x (ih a hmem hpa)

/-- When category ids are pairwise distinct and a category with id `cid` was
found, no category with id `cid` remains after `eraseP` on the lookup
predicate. -/
theorem eraseP_category_gone (uid cid : Nat) :
    ∀ (l : List Category), l.Pairwise (fun a b => a.id ≠ b.id) →
      ∀ c0, l.find? (fun c => c.id == cid && c.user_id == uid) = some c0 →
      ∀ c ∈ l.eraseP (fun c => c.id == cid && c.user_id == uid), c.id ≠ cid := by
  intro l
  induction l with
  | nil => intro _ c0 hf; cases hf
  | cons x xs ih =>
      intro hpw c0 hf c hc
      obtain ⟨hx, hpwt⟩ := List.pairwise_cons.mp hpw
      by_cases hpx : (x.id == cid && x.user_id == uid) = true
      · rw [@List.eraseP_cons_of_pos Category x xs
            (fun c => c.id == cid && c.user_id == uid) hpx] at hc
        have hxid : x.id = cid := by
          have := (Bool.and_eq_true _ _).mp hpx
          exact beq_iff_eq.mp this.1
        intro hcon
        exact hx c hc (by rw [hxid, hcon])
      · rw [@List.eraseP_cons_of_neg Category x xs
            (fun c => c.id == cid && c.user_id == uid) hpx] at hc
        have hf2 : xs.find? (fun c => c.id == cid && c.user_id == uid) = some c0 := by
          rw [@List.find?_cons_of_neg Category
            (fun c => c.id == cid && c.user_id == uid) x xs hpx] at hf
          exact hf
        have hc0 : c0.id = cid := by
          have hp := List.find?_some hf2
          have := (Bool.and_eq_true _ _).mp hp
          exact beq_iff_eq.mp this.1
        cases List.mem_cons.mp hc with
        | inl heq =>
            rw [heq]
            have hmem := List.mem_of_find?_eq_some hf2
            intro hcon
            exact hx c0 hmem (by rw [hcon, hc0])
        | inr hmem => exact ih hpwt c0 hf2 c hmem

/-- The category-detach rewrite applied to each task. -/
def detachCat (cid : Nat) (t : Task) : Task :=
  if t.category_id = some cid then { t with category_id := none } else t

/-- `detachCat` keeps the task id. -/
theorem detachCat_id (cid : Nat) (t : Task) : (detachCat cid t).id = t.id := by
  unfold detachCat
  by_cases h : t.category_id = some cid <;> simp [h]

/-- Looking a task up by id in the detached list finds its detached image,
when task ids are pairwise distinct. -/
theorem findTask_map_detach (cid : Nat) :
    ∀ (l : List Task), l.Pairwise (fun a b => a.id ≠ b.id) →
      ∀ t ∈ l, findTask (l.map (detachCat cid)) t.id = some (detachCat cid t) := by
  intro l
  induction l with
  | nil => intro _ t ht; cases ht
  | cons x xs ih =>
      intro hpw t ht
      obtain ⟨hx, hpwt⟩ := List.pairwise_cons.mp hpw
      rw [List.map_cons]
      unfold findTask
      cases List.mem_cons.mp ht with
      | inl heq =>
          rw [heq]
          rw [List.find?_cons_of_pos _ (by rw [detachCat_id]; exact beq_self_eq_true x.id)]
      | inr hmem =>
          rw [List.find?_cons_of_neg _ (by
            rw [detachCat_id]
            intro hcon
            exact hx t hmem (beq_iff_eq.mp hcon))]
          exact ih hpwt t hmem

/-- C8: deleting a category (found by id for the requesting user) keeps every
task (same count, and all fields except the detached `category_id` unchanged,
with `category_id` nulled exactly on the referencing tasks), keeps every other
category and removes the deleted one, and every referencing not-done task
still produces its main Notifier call on a subsequent fire. -/
theorem C8_delete_category_detaches (s : Store) (uid cid : Nat)
    (hUC : s.categories.Pairwise (fun a b => a.id ≠ b.id))
    (hUT : s.tasks.Pairwise (fun a b => a.id ≠ b.id))
    (c0 : Category) (hfound : findOwnedCategory s uid cid = some c0) :
    (confirm_delete_category s uid cid).tasks.length = s.tasks.length
    ∧ List.Forall₂ (fun told tnew =>
        tnew.id = told.id ∧ tnew.user_id = told.user_id ∧ tnew.title = told.title
        ∧ tnew.due_time = told.due_time ∧ tnew.start_date = told.start_date
        ∧ tnew.repeat_type = told.repeat_type ∧ tnew.repeat_days = told.repeat_days
        ∧ tnew.interval_days = told.interval_days
        ∧ tnew.reminder_offset = told.reminder_offset
        ∧ tnew.is_done = told.is_done ∧ tnew.created_at = told.created_at
        ∧ tnew.category_id = (if told.category_id = some cid then none else told.category_id))
        s.tasks (confirm_delete_category s uid cid).tasks
    ∧ (∀ c ∈ s.categories, c.id ≠ cid → c ∈ (confirm_delete_category s uid cid).categories)
    ∧ (∀ c ∈ (confirm_delete_category s uid cid).categories, c ∈ s.categories ∧ c.id ≠ cid)
    ∧ (∀ t ∈ s.tasks, t.category_id = some cid → t.is_done = false → ∀ u2 : Nat,
        send_reminder (confirm_delete_category s uid cid).tasks u2 t.id
          = [NotifierCall.mainMsg u2 { t with category_id := none }]) := by
  have hres : confirm_delete_category s uid cid
      = { tasks := s.tasks.map (detachCat cid),
          categories := s.categories.eraseP (fun c => c.id == cid && c.user_id == uid) } := by
    unfold confirm_delete_category
    rw [hfound]
    rfl
  rw [hres]
  refine ⟨List.length_map s.tasks (detachCat cid), ?_, ?_, ?_, ?_⟩
  · rw [List.forall₂_map_right_iff]
    rw [List.forall₂_same]
    intro t _
    unfold detachCat
    by_cases h : t.category_id = some cid <;> simp [h]
  · intro c hc hne
    refine mem_eraseP_of_pred_false _ s.categories c hc ?_
    have : (c.id == cid) = false := beq_eq_false_iff_ne.mpr hne
    rw [this]
    rfl
  · intro c hc
    exact ⟨List.mem_of_mem_eraseP hc, eraseP_category_gone uid cid s.categories hUC c0 hfound c hc⟩
  · intro t ht hcat hdone u2
    unfold send_reminder
    rw [findTask_map_detach cid s.tasks hUT t ht]
    unfold detachCat
    rw [if_pos hcat]
    simp [hdone]

/-- Category used in the C8 witness. -/
def catC8 : Category := { id := 1, user_id := 9, name := "home" }

/-- Family of five tasks referencing category 1 in the C8 witness. -/
def tC8 (n : Nat) : Task :=
  { id := n, user_id := 9, title := "t", category_id := some 1,
    due_time := ⟨8, 0⟩, start_date := 0, repeat_type := "daily",
    repeat_days := none, interval_days := 0, reminder_offset := 0,
    is_done := false, created_at := 0 }

/-- Store for the C8 witness: 5 tasks referencing the one category. -/
def storeC8 : Store :=
  { tasks := [tC8 1, tC8 2, tC8 3, tC8 4, tC8 5], categories := [catC8] }

/-- C8 witness: deleting the category referenced by 5 tasks. -/
theorem C8_witness :
    (confirm_delete_category storeC8 9 1).tasks.length = storeC8.tasks.length
    ∧ List.Forall₂ (fun told tnew =>
        tnew.id = told.id ∧ tnew.user_id = told.user_id ∧ tnew.title = told.title
        ∧ tnew.due_time = told.due_time ∧ tnew.start_date = told.start_date
        ∧ tnew.repeat_type = told.repeat_type ∧ tnew.repeat_days = told.repeat_days
        ∧ tnew.interval_days = told.interval_days
        ∧ tnew.reminder_offset = told.reminder_offset
        ∧ tnew.is_done = told.is_done ∧ tnew.created_at = told.created_at
        ∧ tnew.category_id = (if told.category_id = some 1 then none else told.category_id))
        storeC8.tasks (confirm_delete_category storeC8 9 1).tasks
    ∧ (∀ c ∈ storeC8.categories, c.id ≠ 1 → c ∈ (confirm_delete_category storeC8 9 1).categories)
    ∧ (∀ c ∈ (confirm_delete_category storeC8 9 1).categories, c ∈ storeC8.categories ∧ c.id ≠ 1)
    ∧ (∀ t ∈ storeC8.tasks, t.category_id = some 1 → t.is_done = false → ∀ u2 : Nat,
        send_reminder (confirm_delete_category storeC8 9 1).tasks u2 t.id
          = [NotifierCall.mainMsg u2 { t with category_id := none }]) :=
  C8_delete_category_detaches storeC8 9 1 (by decide) (by decide) catC8 rfl

end Bot
